import Mathlib

/-
Shallow embedding of the Patilwada-Hotel food-ordering application
(src/app.py, src/models.py).  The relational store is a record of lists,
each route handler is a pure function from the store (plus the validated
request data) to a result carrying the updated store.  Python floats
(prices, totals) are modelled as rationals; SQLAlchemy autoincrement
primary keys are passed in as explicit parameters where a handler creates
rows; datetimes are integers.
-/

namespace Hotel

/-- Embeds models.User (models.py).  The Order/Cart/ServiceRequest
backrefs are represented by the foreign keys on those tables. -/
structure User where
  id : Nat
  name : String
  email : String
  password : String
  phone : String
  location : String
  is_admin : Bool
  created_at : Int
deriving DecidableEq

/-- Embeds models.Food (models.py). -/
structure Food where
  id : Nat
  name : String
  category : String
  price : Rat
  description : String
  image : String
  is_available : Bool
  created_at : Int
deriving DecidableEq

/-- Embeds models.Order (models.py).  status defaults to "pending",
payment_status to "pending", payment_method to "cash". -/
structure Order where
  id : Nat
  order_number : String
  user_id : Nat
  total_amount : Rat
  status : String
  payment_method : String
  payment_status : String
  location : String
  phone : String
  special_instructions : String
  created_at : Int
deriving DecidableEq

/-- Embeds models.OrderItem (models.py).  The autoincrement primary key
is never read by any handler and is omitted. -/
structure OrderItem where
  order_id : Nat
  food_id : Nat
  quantity : Int
  price : Rat
  special_instructions : String
deriving DecidableEq

/-- Embeds models.Cart (models.py).  special_instructions uses the empty
string for the SQL NULL / empty cases, which Python treats alike (both
are falsy in the merge logic of add_to_cart). -/
structure Cart where
  id : Nat
  user_id : Nat
  food_id : Nat
  quantity : Int
  special_instructions : String
  created_at : Int
deriving DecidableEq

/-- Embeds models.Coupon (models.py). -/
structure Coupon where
  id : Nat
  code : String
  discount_type : String
  value : Rat
  valid_to : Int
  active : Bool
  usage_limit : Int
  used_count : Int
  created_at : Int
deriving DecidableEq

/-- The relational store: one list per table used by the claims
(ServiceRequest and Newsletter play no role in any claim). -/
structure DB where
  users : List User
  foods : List Food
  carts : List Cart
  orders : List Order
  order_items : List OrderItem
  coupons : List Coupon
deriving DecidableEq

/-- Primary-key lookup User.query.get(id): first row with that id. -/
def findUser (db : DB) (uid : Nat) : Option User :=
  db.users.find? (fun u => u.id == uid)

/-- Primary-key lookup Food.query.get_or_404(food_id). -/
def findFood (db : DB) (fid : Nat) : Option Food :=
  db.foods.find? (fun f => f.id == fid)

/-- Primary-key lookup Order.query.get_or_404(order_id). -/
def findOrder (db : DB) (oid : Nat) : Option Order :=
  db.orders.find? (fun o => o.id == oid)

/-- Primary-key lookup Cart.query.get_or_404(item_id). -/
def findCartRow (db : DB) (cid : Nat) : Option Cart :=
  db.carts.find? (fun c => c.id == cid)

/-- Cart.query.filter_by(user_id=...).all() : the requesting user's cart
rows, in table order. -/
def userCart (db : DB) (uid : Nat) : List Cart :=
  db.carts.filter (fun c => c.user_id == uid)

/-- The live price item.food.price read through the Cart.food
relationship; a dangling foreign key (impossible in a consistent store)
reads as 0. -/
def foodPrice (db : DB) (fid : Nat) : Rat :=
  match findFood db fid with
  | some f => f.price
  | none => 0

/-- Embeds calculate_cart_total (app.py lines 53-61) for an
authenticated user: total += item.food.price * item.quantity over the
user's cart rows. -/
def calculate_cart_total (db : DB) (uid : Nat) : Rat :=
  (userCart db uid).foldl (fun acc c => acc + foodPrice db c.food_id * (c.quantity : Rat)) 0

/-- Mutating the single ORM object returned by a .first() / .get() query
updates the first matching row of the table and leaves the rest alone. -/
def updateFirst (p : α → Bool) (f : α → α) : List α → List α
  | [] => []
  | x :: xs => if p x then f x :: xs else x :: updateFirst p f xs

/-- The validated CheckoutForm fields read by the checkout handler. -/
structure CheckoutForm where
  name : String
  phone : String
  location : String
  payment_method : String
  special_instructions : String
deriving DecidableEq

/-- The Order row built by checkout (app.py lines 383-396): subtotal
from calculate_cart_total, a flat delivery charge of 50 when the
subtotal is strictly below 200, defaults for status and payment_status,
contact data from the form. -/
def checkoutOrder (db : DB) (uid : Nat) (form : CheckoutForm)
    (order_number : String) (oid : Nat) (now : Int) : Order :=
  let subtotal := calculate_cart_total db uid
  let delivery_charge : Rat := if subtotal < 200 then 50 else 0
  { id := oid, order_number := order_number, user_id := uid,
    total_amount := subtotal + delivery_charge, status := "pending",
    payment_method := form.payment_method, payment_status := "pending",
    location := form.location, phone := form.phone,
    special_instructions := form.special_instructions, created_at := now }

/-- The OrderItem rows built by checkout (app.py lines 404-413): one
per cart row, copying the food reference, quantity, live food price and
special instructions. -/
def checkoutItems (db : DB) (uid : Nat) (oid : Nat) : List OrderItem :=
  (userCart db uid).map (fun c =>
    { order_id := oid, food_id := c.food_id, quantity := c.quantity,
      price := foodPrice db c.food_id,
      special_instructions := c.special_instructions })

/-- All writes of a successful checkout (app.py lines 387-419): the new
order, the user-location update, the new order items, and the deletion
of every cart row of the user. -/
def checkoutApply (db : DB) (uid : Nat) (form : CheckoutForm)
    (order_number : String) (oid : Nat) (now : Int) : DB :=
  let users := updateFirst (fun u => u.id == uid)
    (fun u => { u with location := form.location }) db.users
  { db with users := users,
            orders := db.orders ++ [checkoutOrder db uid form order_number oid now],
            order_items := db.order_items ++ checkoutItems db uid oid,
            carts := db.carts.filter (fun c => !(c.user_id == uid)) }

/-- Embeds the POST branch of checkout (app.py lines 364-433) for an
authenticated user uid with a validated form.  order_number, oid (the
autoincrement id obtained by db.session.flush) and now are parameters of
the environment.  Returns none on the empty-cart redirect, otherwise
the store with all the checkout writes applied. -/
def checkout (db : DB) (uid : Nat) (form : CheckoutForm)
    (order_number : String) (oid : Nat) (now : Int) : Option DB :=
  if (userCart db uid).isEmpty then none
  else some (checkoutApply db uid form order_number oid now)

/-- Writing order.status = s on the object fetched by
Order.query.get_or_404(oid). -/
def setOrderStatus (db : DB) (oid : Nat) (s : String) : DB :=
  let orders := updateFirst (fun x => x.id == oid)
    (fun x => { x with status := s }) db.orders
  { db with orders := orders }

/-- Outcome of the cancel_order route. -/
inductive CancelResult where
  | notFound
  | forbidden
  | rejected (db : DB)
  | ok (db : DB)
deriving DecidableEq

/-- Embeds cancel_order (app.py lines 467-484): 404 on a missing order,
403 when the requester does not own it, a flashed rejection (store
untouched) unless the status is pending or confirmed, otherwise the
fetched order's status is set to cancelled. -/
def cancel_order (db : DB) (uid : Nat) (oid : Nat) : CancelResult :=
  match findOrder db oid with
  | none => .notFound
  | some o =>
    if !(o.user_id == uid) then .forbidden
    else if !(["pending", "confirmed"].contains o.status) then .rejected db
    else .ok (setOrderStatus db oid "cancelled")

/-- Outcome of the admin update_order_status route. -/
inductive UpdateStatusResult where
  | notFound
  | badStatus
  | ok (db : DB)
deriving DecidableEq

/-- The five status strings accepted by update_order_status. -/
def statusWhitelist : List String :=
  ["pending", "confirmed", "preparing", "delivered", "cancelled"]

/-- Embeds the admin route update_order_status (app.py lines 830-844):
404 on a missing order; any status in the whitelist is written
unconditionally, anything else answers 400. -/
def update_order_status (db : DB) (oid : Nat) (new_status : String) : UpdateStatusResult :=
  match findOrder db oid with
  | none => .notFound
  | some _ =>
    if statusWhitelist.contains new_status then
      .ok (setOrderStatus db oid new_status)
    else .badStatus

/-- The instruction-merge logic of add_to_cart: non-empty new
instructions are appended to non-empty existing ones with a "; "
separator, stored directly when the row had none, and empty new
instructions leave the field alone. -/
def mergedInstructions (old new : String) : String :=
  if new ≠ "" then
    if old ≠ "" then old ++ "; " ++ new else new
  else old

/-- The writes add_to_cart performs on an existing cart row for the
same user and food: quantity incremented, instructions merged. -/
def cartMergeApply (quantity : Int) (instructions : String) (c : Cart) : Cart :=
  { c with quantity := c.quantity + quantity,
           special_instructions :=
             mergedInstructions c.special_instructions instructions }

/-- Outcome of add_to_cart. -/
inductive AddResult where
  | notFound
  | notAvailable
  | ok (db : DB)
deriving DecidableEq

/-- Embeds the authenticated branch of add_to_cart (app.py lines
270-313): 404 on a missing food, 400 when it is unavailable; if the user
already has a cart row for this food its quantity is incremented and
non-empty new instructions are appended with a "; " separator (or stored
directly when the row had none), otherwise a fresh row is inserted. -/
def add_to_cart (db : DB) (uid : Nat) (fid : Nat) (quantity : Int)
    (instructions : String) (new_id : Nat) (now : Int) : AddResult :=
  match findFood db fid with
  | none => .notFound
  | some food =>
    if !food.is_available then .notAvailable
    else
      match db.carts.find? (fun c => c.user_id == uid && c.food_id == fid) with
      | some _ =>
        let carts := updateFirst
          (fun c => c.user_id == uid && c.food_id == fid)
          (cartMergeApply quantity instructions) db.carts
        .ok { db with carts := carts }
      | none =>
        let row : Cart :=
          { id := new_id, user_id := uid, food_id := fid, quantity := quantity,
            special_instructions := instructions, created_at := now }
        .ok { db with carts := db.carts ++ [row] }

/-- Outcome of update_cart, carrying the JSON message on success. -/
inductive UpdateCartResult where
  | notFound
  | forbidden
  | ok (db : DB) (message : String)
deriving DecidableEq

/-- db.session.delete on the cart row fetched by
Cart.query.get_or_404(cid). -/
def removeCartRow (db : DB) (cid : Nat) : DB :=
  { db with carts := db.carts.eraseP (fun c => c.id == cid) }

/-- Writing cart_item.quantity = q on the cart row fetched by
Cart.query.get_or_404(cid). -/
def setCartQuantity (db : DB) (cid : Nat) (q : Int) : DB :=
  let carts := updateFirst (fun c => c.id == cid)
    (fun c => { c with quantity := q }) db.carts
  { db with carts := carts }

/-- Embeds update_cart (app.py lines 315-346): 404 on a missing row, 403
when the requester does not own it; a requested quantity below 1 deletes
the fetched row, otherwise its quantity is overwritten. -/
def update_cart (db : DB) (uid : Nat) (item_id : Nat) (quantity : Int) : UpdateCartResult :=
  match findCartRow db item_id with
  | none => .notFound
  | some item =>
    if !(item.user_id == uid) then .forbidden
    else if quantity < 1 then
      .ok (removeCartRow db item_id) "Item removed from cart"
    else
      .ok (setCartQuantity db item_id quantity) "Cart updated"

/-- The FoodForm fields written back by edit_food; image is the saved
upload filename when one was supplied and saved, none otherwise. -/
structure FoodForm where
  name : String
  category : String
  price : Rat
  description : String
  is_available : Bool
  image : Option String
deriving DecidableEq

/-- The writes edit_food performs on the fetched food row: every form
field overwritten, the image replaced only when a new upload was
saved. -/
def foodApply (form : FoodForm) (f : Food) : Food :=
  { f with name := form.name, category := form.category,
           price := form.price, description := form.description,
           is_available := form.is_available,
           image := match form.image with
                    | some img => img
                    | none => f.image }

/-- Embeds the POST branch of the admin route edit_food (app.py lines
753-783): 404 on a missing food, otherwise the fetched food row's
fields are overwritten from the form; no other table is touched. -/
def edit_food (db : DB) (fid : Nat) (form : FoodForm) : Option DB :=
  match findFood db fid with
  | none => none
  | some _ =>
    let foods := updateFirst (fun f => f.id == fid) (foodApply form) db.foods
    some { db with foods := foods }

/-- Outcome of order_details: the rendered order, or an HTTP error. -/
inductive ViewResult where
  | notFound
  | forbidden
  | ok (o : Order)
deriving DecidableEq

/-- Embeds order_details (app.py lines 456-465) for an authenticated
viewer: 404 on a missing order, 403 when the viewer neither owns the
order nor is an admin, otherwise the order is rendered. -/
def order_details (db : DB) (viewer : User) (oid : Nat) : ViewResult :=
  match findOrder db oid with
  | none => .notFound
  | some o =>
    if !(o.user_id == viewer.id) && !viewer.is_admin then .forbidden
    else .ok o

/-- The AdminUserForm fields written back by edit_user. -/
structure AdminUserForm where
  name : String
  email : String
  phone : String
  location : String
  is_admin : Bool
deriving DecidableEq

/-- Outcome of the admin edit_user route. -/
inductive EditUserResult where
  | notFound
  | emailTaken
  | ok (db : DB)
deriving DecidableEq

/-- The duplicate-email check of edit_user: the first user holding the
form email exists and is not the edit target. -/
def editUserDup (db : DB) (target : User) (form : AdminUserForm) : Bool :=
  match db.users.find? (fun u => u.email == form.email) with
  | some existing => !(existing.id == target.id)
  | none => false

/-- The writes edit_user performs on the fetched target row, including
the self-demotion guard on is_admin. -/
def editUserApply (db : DB) (current_uid target_uid : Nat)
    (form : AdminUserForm) : DB :=
  let users := updateFirst (fun u => u.id == target_uid)
    (fun u =>
      { u with name := form.name, email := form.email, phone := form.phone,
               location := form.location,
               is_admin := if target_uid == current_uid && !form.is_admin
                           then true else form.is_admin }) db.users
  { db with users := users }

/-- Embeds the POST branch of the admin route edit_user (app.py lines
876-907) invoked by current_uid on target_uid: 404 on a missing user, a
rejection (store untouched) when the form email belongs to another user,
otherwise the fetched row is overwritten; when an admin edits their own
record with the admin box cleared, is_admin is forced back to true. -/
def edit_user (db : DB) (current_uid : Nat) (target_uid : Nat)
    (form : AdminUserForm) : EditUserResult :=
  match findUser db target_uid with
  | none => .notFound
  | some user =>
    if editUserDup db user form then .emailTaken
    else .ok (editUserApply db current_uid target_uid form)

/-- Descending insertion by created_at, used to embed
order_by(Coupon.created_at.desc()). -/
def insertByCreatedDesc (c : Coupon) : List Coupon → List Coupon
  | [] => [c]
  | x :: xs => if x.created_at ≤ c.created_at then c :: x :: xs
               else x :: insertByCreatedDesc c xs

/-- Sort coupons by created_at, newest first. -/
def sortByCreatedDesc : List Coupon → List Coupon
  | [] => []
  | x :: xs => insertByCreatedDesc x (sortByCreatedDesc xs)

/-- Embeds the active-coupon lookup of the homepage handler index
(app.py lines 120-123): the newest coupon among those with active true
and valid_to at or after the current time. -/
def active_coupon (db : DB) (now : Int) : Option Coupon :=
  (sortByCreatedDesc (db.coupons.filter
    (fun c => c.active && decide ((now : Int) ≤ c.valid_to)))).head?

/-- Position of a status along the forward chain of the spec. -/
def statusRank : String → Option Nat
  | "pending" => some 0
  | "confirmed" => some 1
  | "preparing" => some 2
  | "delivered" => some 3
  | _ => none

/-- Modelled from the spec: "Order.status transitions are
one-directional except for cancellation from pending/confirmed only".
A transition may stay put, move forward along pending → confirmed →
preparing → delivered, or move to cancelled from pending or confirmed. -/
def specAllowedTransition (s t : String) : Bool :=
  s == t ||
  (t == "cancelled" && (s == "pending" || s == "confirmed")) ||
  (match statusRank s, statusRank t with
   | some a, some b => decide (a ≤ b)
   | _, _ => false)

/- Concrete sample rows used by the witness and counterexample
theorems. -/

/-- A regular customer. -/
def alice : User :=
  { id := 1, name := "Alice", email := "alice@x.com", password := "h1",
    phone := "111", location := "T1", is_admin := false, created_at := 0 }

/-- An administrator. -/
def adminBob : User :=
  { id := 2, name := "Bob", email := "bob@x.com", password := "h2",
    phone := "222", location := "Front Desk", is_admin := true, created_at := 0 }

/-- An available menu item. -/
def dosa : Food :=
  { id := 1, name := "Masala Dosa", category := "breakfast", price := 250,
    description := "", image := "d.jpg", is_available := true, created_at := 0 }

/-- A cheap available menu item. -/
def soda : Food :=
  { id := 2, name := "Fresh Lime Soda", category := "beverages", price := 150,
    description := "", image := "s.jpg", is_available := true, created_at := 0 }

/-- A cart row of alice for dosa. -/
def cartRow1 : Cart :=
  { id := 1, user_id := 1, food_id := 1, quantity := 2,
    special_instructions := "no onions", created_at := 0 }

/-- A delivered order of alice. -/
def order1 : Order :=
  { id := 1, order_number := "ORD1", user_id := 1, total_amount := 500,
    status := "delivered", payment_method := "cash",
    payment_status := "pending", location := "T1", phone := "111",
    special_instructions := "", created_at := 0 }

/-- A live coupon. -/
def coupon1 : Coupon :=
  { id := 1, code := "SAVE10", discount_type := "percentage", value := 10,
    valid_to := 100, active := true, usage_limit := 100, used_count := 0,
    created_at := 5 }

/-- A small consistent store. -/
def sampleDB : DB :=
  { users := [alice, adminBob], foods := [dosa, soda], carts := [cartRow1],
    orders := [order1], order_items := [], coupons := [coupon1] }

/-- A validated checkout form of alice. -/
def sampleForm : CheckoutForm :=
  { name := "Alice", phone := "111", location := "T3",
    payment_method := "cash", special_instructions := "ring bell" }

/-- An admin food edit doubling the dosa price. -/
def priceEditForm : FoodForm :=
  { name := "Masala Dosa", category := "breakfast", price := 500,
    description := "", is_available := true, image := none }

/-- The sample store after the dosa price edit. -/
def editFoodWitnessDB : DB :=
  { sampleDB with
    foods := updateFirst (fun f => f.id == 1) (foodApply priceEditForm) sampleDB.foods }

/-- The admin clearing their own admin checkbox. -/
def selfDemoteForm : AdminUserForm :=
  { name := "Bob", email := "bob@x.com", phone := "222",
    location := "Front Desk", is_admin := false }

/- Helper lemmas about the list combinators of the embedding. -/

theorem length_updateFirst (p : α → Bool) (f : α → α) (l : List α) :
    (updateFirst p f l).length = l.length := by
  induction l with
  | nil => rfl
  | cons x xs ih =>
    rw [updateFirst]
    by_cases h : p x
    · simp [h]
    · simp [h, ih]

theorem find?_updateFirst (p : α → Bool) (f : α → α)
    (hf : ∀ a, p a = true → p (f a) = true) (l : List α) :
    (updateFirst p f l).find? p = (l.find? p).map f := by
  induction l with
  | nil => rfl
  | cons x xs ih =>
    rw [updateFirst]
    by_cases h : p x
    · rw [if_pos h, List.find?_cons_of_pos _ (hf x h), List.find?_cons_of_pos _ h]
      rfl
    · rw [if_neg h, List.find?_cons_of_neg _ h, List.find?_cons_of_neg _ h, ih]

theorem mem_insertByCreatedDesc (a c : Coupon) (l : List Coupon) :
    a ∈ insertByCreatedDesc c l ↔ a = c ∨ a ∈ l := by
  induction l with
  | nil => simp [insertByCreatedDesc]
  | cons x xs ih =>
    rw [insertByCreatedDesc]
    by_cases h : x.created_at ≤ c.created_at
    · simp [h]
    · simp [h, ih]
      tauto

theorem mem_sortByCreatedDesc (a : Coupon) (l : List Coupon) :
    a ∈ sortByCreatedDesc l ↔ a ∈ l := by
  induction l with
  | nil => simp [sortByCreatedDesc]
  | cons x xs ih =>
    rw [sortByCreatedDesc]
    simp [mem_insertByCreatedDesc, ih]

theorem foldl_add_eq_sum (g : α → Rat) (l : List α) (acc : Rat) :
    l.foldl (fun a c => a + g c) acc = acc + (l.map g).sum := by
  induction l generalizing acc with
  | nil => simp
  | cons x xs ih =>
    rw [List.foldl_cons, ih, List.map_cons, List.sum_cons]
    ring

theorem calculate_cart_total_eq_sum (db : DB) (uid : Nat) :
    calculate_cart_total db uid =
      ((userCart db uid).map
        (fun c => foodPrice db c.food_id * (c.quantity : Rat))).sum := by
  rw [calculate_cart_total, foldl_add_eq_sum]
  simp

theorem find?_eraseP_eq_none (l : List Cart) (k : Nat)
    (hnd : (l.map Cart.id).Nodup) :
    (l.eraseP (fun c => c.id == k)).find? (fun c => c.id == k) = none := by
  induction l with
  | nil => rfl
  | cons x xs ih =>
    rw [List.map_cons, List.nodup_cons] at hnd
    by_cases h : x.id = k
    · rw [List.eraseP_cons_of_pos (by simp [h])]
      rw [List.find?_eq_none]
      intro a ha
      simp only [beq_iff_eq]
      intro hak
      exact hnd.1 (List.mem_map.mpr ⟨a, ha, by rw [hak, h]⟩)
    · rw [List.eraseP_cons_of_neg (by simp [h])]
      rw [List.find?_cons_of_neg _ (by simp [h])]
      exact ih hnd.2

theorem head?_mem {l : List α} {a : α} (h : l.head? = some a) : a ∈ l := by
  cases l with
  | nil => cases h
  | cons x xs =>
    rw [List.head?_cons] at h
    injection h with h
    rw [← h]
    exact List.mem_cons_self x xs

/-- Reading the order back after setOrderStatus sees only the status
changed. -/
theorem findOrder_setOrderStatus (db : DB) (oid : Nat) (s : String) :
    findOrder (setOrderStatus db oid s) oid =
      (findOrder db oid).map (fun o => { o with status := s }) := by
  show (updateFirst (fun x => x.id == oid) (fun x => { x with status := s })
      db.orders).find? (fun o => o.id == oid) =
    (db.orders.find? (fun o => o.id == oid)).map (fun o => { o with status := s })
  exact find?_updateFirst (fun o => o.id == oid)
    (fun o => { o with status := s }) (fun a ha => ha) db.orders

/-- C3: the user cancel route on an order the requester owns cancels it
exactly when the status is pending or confirmed, writes status
cancelled in that case, and otherwise rejects the request leaving the
store, the order and its status unchanged. -/
theorem cancel_order_correct (db : DB) (uid oid : Nat) (o : Order)
    (hfind : findOrder db oid = some o) (hown : o.user_id = uid) :
    (cancel_order db uid oid = .ok (setOrderStatus db oid "cancelled") ↔
        (o.status = "pending" ∨ o.status = "confirmed")) ∧
    ((o.status = "pending" ∨ o.status = "confirmed") →
        findOrder (setOrderStatus db oid "cancelled") oid =
          some { o with status := "cancelled" }) ∧
    (¬(o.status = "pending" ∨ o.status = "confirmed") →
        cancel_order db uid oid = .rejected db) := by
  have hbody : cancel_order db uid oid =
      (if !(o.user_id == uid) then .forbidden
       else if !(["pending", "confirmed"].contains o.status) then .rejected db
       else .ok (setOrderStatus db oid "cancelled")) := by
    rw [cancel_order, hfind]
  have hbeq : (o.user_id == uid) = true := beq_iff_eq.mpr hown
  rw [hbeq] at hbody
  simp only [Bool.not_true, Bool.false_eq_true, if_false] at hbody
  by_cases hs : o.status = "pending" ∨ o.status = "confirmed"
  · have hcont : (["pending", "confirmed"].contains o.status) = true := by
      rcases hs with h | h <;> simp [h]
    rw [hcont] at hbody
    simp only [Bool.not_true, Bool.false_eq_true, if_false] at hbody
    refine ⟨by simp [hbody, hs], fun _ => ?_, fun hn => absurd hs hn⟩
    rw [findOrder_setOrderStatus, hfind]
    rfl
  · have hcont : (["pending", "confirmed"].contains o.status) = false := by
      simp only [List.contains_cons, List.contains_nil, Bool.or_false,
        Bool.or_eq_false_iff, beq_eq_false_iff_ne]
      push_neg at hs
      exact ⟨hs.1, hs.2⟩
    rw [hcont] at hbody
    simp only [Bool.not_false, if_true] at hbody
    refine ⟨?_, fun h => absurd h hs, fun _ => hbody⟩
    rw [hbody]
    simp [hs]

/-- C3 witness: a delivered order owned by alice cannot be cancelled
and is left unchanged. -/
theorem cancel_order_correct_witness :
    (cancel_order sampleDB 1 1 = .ok (setOrderStatus sampleDB 1 "cancelled") ↔
        (order1.status = "pending" ∨ order1.status = "confirmed")) ∧
    ((order1.status = "pending" ∨ order1.status = "confirmed") →
        findOrder (setOrderStatus sampleDB 1 "cancelled") 1 =
          some { order1 with status := "cancelled" }) ∧
    (¬(order1.status = "pending" ∨ order1.status = "confirmed") →
        cancel_order sampleDB 1 1 = .rejected sampleDB) :=
  cancel_order_correct sampleDB 1 1 order1 (by decide) (by decide)

/-- C7: order_details answers 403 whenever the authenticated viewer
neither owns the order nor is an admin, and renders the order for the
owner and for any admin. -/
theorem order_details_auth (db : DB) (viewer : User) (oid : Nat) (o : Order)
    (hfind : findOrder db oid = some o) :
    (o.user_id ≠ viewer.id → viewer.is_admin = false →
        order_details db viewer oid = .forbidden) ∧
    (o.user_id = viewer.id ∨ viewer.is_admin = true →
        order_details db viewer oid = .ok o) := by
  have hbody : order_details db viewer oid =
      (if !(o.user_id == viewer.id) && !viewer.is_admin then .forbidden
       else .ok o) := by
    rw [order_details, hfind]
  constructor
  · intro h1 h2
    rw [hbody]
    simp [h1, h2]
  · intro h
    rw [hbody]
    rcases h with h | h <;> simp [h]

/-- C7 witness: alice owns order 1 and may view it; a non-owning
non-admin viewer is refused; the admin may view it. -/
theorem order_details_auth_witness :
    ((order1.user_id ≠ alice.id → alice.is_admin = false →
        order_details sampleDB alice 1 = .forbidden) ∧
     (order1.user_id = alice.id ∨ alice.is_admin = true →
        order_details sampleDB alice 1 = .ok order1)) ∧
    ((order1.user_id ≠ adminBob.id → adminBob.is_admin = false →
        order_details sampleDB adminBob 1 = .forbidden) ∧
     (order1.user_id = adminBob.id ∨ adminBob.is_admin = true →
        order_details sampleDB adminBob 1 = .ok order1)) :=
  ⟨order_details_auth sampleDB alice 1 order1 (by decide),
   order_details_auth sampleDB adminBob 1 order1 (by decide)⟩

/-- C8: every successful edit-user call an admin makes on their own
record leaves is_admin true, in particular when the admin checkbox is
cleared the flag is forced back to true. -/
theorem edit_user_no_self_demotion (db : DB) (uid : Nat)
    (form : AdminUserForm) (u : User) (hfind : findUser db uid = some u) :
    ∀ db2, edit_user db uid uid form = .ok db2 →
      (findUser db2 uid).map User.is_admin = some true := by
  intro db2 h
  have hbody : edit_user db uid uid form =
      (if editUserDup db u form then EditUserResult.emailTaken
       else .ok (editUserApply db uid uid form)) := by
    rw [edit_user, hfind]
  rw [hbody] at h
  by_cases hdup : editUserDup db u form
  · rw [if_pos hdup] at h
    cases h
  · rw [if_neg hdup] at h
    injection h with h
    rw [← h]
    show Option.map User.is_admin
      ((updateFirst (fun v => v.id == uid)
        (fun v => { v with name := form.name, email := form.email,
                           phone := form.phone, location := form.location,
                           is_admin := if uid == uid && !form.is_admin
                                       then true else form.is_admin })
        db.users).find? (fun v => v.id == uid)) = some true
    rw [find?_updateFirst (fun v : User => v.id == uid)
      (fun v : User =>
        { v with name := form.name, email := form.email,
                 phone := form.phone, location := form.location,
                 is_admin := if uid == uid && !form.is_admin
                             then true else form.is_admin })
      (fun a ha => ha)]
    rw [findUser] at hfind
    rw [hfind]
    by_cases hf : form.is_admin
    · simp [hf]
    · simp [hf]

/-- C8 witness: the admin editing their own record with the admin box
cleared stays an admin. -/
theorem edit_user_no_self_demotion_witness :
    (findUser (editUserApply sampleDB 2 2 selfDemoteForm) 2).map User.is_admin =
      some true :=
  edit_user_no_self_demotion sampleDB 2 selfDemoteForm adminBob (by decide)
    (editUserApply sampleDB 2 2 selfDemoteForm) (by rfl)

/-- C1: a checkout by a user with a non-empty cart succeeds, appends
exactly one new Order whose total_amount equals the cart subtotal (the
sum of live food price times quantity over the user's cart rows) plus
50 when that subtotal is strictly below 200 and 0 otherwise, appends
one OrderItem per cart row copying the food reference, quantity, live
price and instructions, and deletes every cart row of the user, leaving
the user's cart empty. -/
theorem checkout_correct (db : DB) (uid : Nat) (form : CheckoutForm)
    (onum : String) (oid : Nat) (now : Int)
    (hne : userCart db uid ≠ []) :
    ∃ db2, checkout db uid form onum oid now = some db2 ∧
      calculate_cart_total db uid =
        ((userCart db uid).map
          (fun c => foodPrice db c.food_id * (c.quantity : Rat))).sum ∧
      db2.orders = db.orders ++ [checkoutOrder db uid form onum oid now] ∧
      (checkoutOrder db uid form onum oid now).total_amount =
        calculate_cart_total db uid +
          (if calculate_cart_total db uid < 200 then 50 else 0) ∧
      db2.order_items = db.order_items ++ (userCart db uid).map (fun c =>
        { order_id := oid, food_id := c.food_id, quantity := c.quantity,
          price := foodPrice db c.food_id,
          special_instructions := c.special_instructions }) ∧
      db2.carts = db.carts.filter (fun c => !(c.user_id == uid)) ∧
      userCart db2 uid = [] := by
  have h0 : (userCart db uid).isEmpty = false := List.isEmpty_eq_false.mpr hne
  refine ⟨checkoutApply db uid form onum oid now, ?_,
    calculate_cart_total_eq_sum db uid, rfl, rfl, rfl, rfl, ?_⟩
  · rw [checkout, h0]
    simp
  · show userCart (checkoutApply db uid form onum oid now) uid = []
    show (db.carts.filter (fun c => !(c.user_id == uid))).filter
      (fun c => c.user_id == uid) = []
    rw [List.filter_eq_nil_iff]
    intro a ha
    rw [List.mem_filter] at ha
    have := ha.2
    rw [Bool.not_eq_true'] at this
    simp [this]

/-- C1 witness: alice checks out a cart holding two dosas; the subtotal
500 is above the threshold so no delivery charge applies, one order and
one line item are created and the cart is emptied. -/
theorem checkout_correct_witness :
    ∃ db2, checkout sampleDB 1 sampleForm "ORD2" 2 7 = some db2 ∧
      calculate_cart_total sampleDB 1 =
        ((userCart sampleDB 1).map
          (fun c => foodPrice sampleDB c.food_id * (c.quantity : Rat))).sum ∧
      db2.orders = sampleDB.orders ++ [checkoutOrder sampleDB 1 sampleForm "ORD2" 2 7] ∧
      (checkoutOrder sampleDB 1 sampleForm "ORD2" 2 7).total_amount =
        calculate_cart_total sampleDB 1 +
          (if calculate_cart_total sampleDB 1 < 200 then 50 else 0) ∧
      db2.order_items = sampleDB.order_items ++ (userCart sampleDB 1).map (fun c =>
        { order_id := 2, food_id := c.food_id, quantity := c.quantity,
          price := foodPrice sampleDB c.food_id,
          special_instructions := c.special_instructions }) ∧
      db2.carts = sampleDB.carts.filter (fun c => !(c.user_id == 1)) ∧
      userCart db2 1 = [] :=
  checkout_correct sampleDB 1 sampleForm "ORD2" 2 7 (by decide)

/-- C9: besides creating the order, a successful checkout overwrites
the requesting user's stored profile location with the form location
and leaves every other field of the User record unchanged. -/
theorem checkout_updates_location (db : DB) (uid : Nat) (form : CheckoutForm)
    (onum : String) (oid : Nat) (now : Int) (db2 : DB) (u : User)
    (h : checkout db uid form onum oid now = some db2)
    (hu : findUser db uid = some u) :
    findUser db2 uid = some { u with location := form.location } := by
  rw [checkout] at h
  by_cases h0 : (userCart db uid).isEmpty = true
  · rw [if_pos h0] at h
    cases h
  · rw [if_neg h0] at h
    injection h with h
    rw [← h]
    show ((updateFirst (fun v => v.id == uid)
      (fun v : User => { v with location := form.location })
      db.users).find? (fun v => v.id == uid)) =
        some { u with location := form.location }
    rw [find?_updateFirst (fun v : User => v.id == uid)
      (fun v : User => { v with location := form.location }) (fun a ha => ha)]
    rw [findUser] at hu
    rw [hu]
    rfl

/-- C9 witness: alice's checkout overwrites her stored location T1 with
the form location T3 and changes nothing else on her record. -/
theorem checkout_updates_location_witness :
    findUser (checkoutApply sampleDB 1 sampleForm "ORD2" 2 7) 1 =
      some { alice with location := sampleForm.location } :=
  checkout_updates_location sampleDB 1 sampleForm "ORD2" 2 7
    (checkoutApply sampleDB 1 sampleForm "ORD2" 2 7) alice (by rfl) (by decide)

/-- C10: update_cart on an owned row deletes the row when the requested
quantity is below 1 (the row is gone afterwards, so no zero or negative
quantity is stored) answering with message "Item removed from cart",
and overwrites the quantity with the requested value when it is at
least 1. -/
theorem update_cart_correct (db : DB) (uid item_id : Nat) (q : Int)
    (item : Cart) (hfind : findCartRow db item_id = some item)
    (hown : item.user_id = uid) (hnd : (db.carts.map Cart.id).Nodup) :
    (q < 1 →
      update_cart db uid item_id q =
        .ok (removeCartRow db item_id) "Item removed from cart" ∧
      findCartRow (removeCartRow db item_id) item_id = none) ∧
    (1 ≤ q →
      update_cart db uid item_id q =
        .ok (setCartQuantity db item_id q) "Cart updated" ∧
      findCartRow (setCartQuantity db item_id q) item_id =
        some { item with quantity := q }) := by
  have hbody : update_cart db uid item_id q =
      (if !(item.user_id == uid) then UpdateCartResult.forbidden
       else if q < 1 then
         .ok (removeCartRow db item_id) "Item removed from cart"
       else .ok (setCartQuantity db item_id q) "Cart updated") := by
    rw [update_cart, hfind]
  have hbeq : (item.user_id == uid) = true := beq_iff_eq.mpr hown
  rw [hbeq] at hbody
  simp only [Bool.not_true, Bool.false_eq_true, if_false] at hbody
  constructor
  · intro hq
    rw [if_pos hq] at hbody
    refine ⟨hbody, ?_⟩
    show (db.carts.eraseP (fun c => c.id == item_id)).find?
      (fun c => c.id == item_id) = none
    exact find?_eraseP_eq_none db.carts item_id hnd
  · intro hq
    rw [if_neg (not_lt.mpr hq)] at hbody
    refine ⟨hbody, ?_⟩
    show ((updateFirst (fun c => c.id == item_id)
      (fun c : Cart => { c with quantity := q }) db.carts).find?
        (fun c => c.id == item_id)) = some { item with quantity := q }
    rw [find?_updateFirst (fun c : Cart => c.id == item_id)
      (fun c : Cart => { c with quantity := q }) (fun a ha => ha)]
    rw [findCartRow] at hfind
    rw [hfind]
    rfl

/-- C10 witness: on alice's cart row, quantity 0 removes the row and
quantity 3 stores exactly 3. -/
theorem update_cart_correct_witness :
    ((0 < (1 : Int) →
      update_cart sampleDB 1 1 0 =
        .ok (removeCartRow sampleDB 1) "Item removed from cart" ∧
      findCartRow (removeCartRow sampleDB 1) 1 = none) ∧
    ((1 : Int) ≤ 0 →
      update_cart sampleDB 1 1 0 =
        .ok (setCartQuantity sampleDB 1 0) "Cart updated" ∧
      findCartRow (setCartQuantity sampleDB 1 0) 1 =
        some { cartRow1 with quantity := 0 })) ∧
    (((3 : Int) < 1 →
      update_cart sampleDB 1 1 3 =
        .ok (removeCartRow sampleDB 1) "Item removed from cart" ∧
      findCartRow (removeCartRow sampleDB 1) 1 = none) ∧
    ((1 : Int) ≤ 3 →
      update_cart sampleDB 1 1 3 =
        .ok (setCartQuantity sampleDB 1 3) "Cart updated" ∧
      findCartRow (setCartQuantity sampleDB 1 3) 1 =
        some { cartRow1 with quantity := 3 })) :=
  ⟨update_cart_correct sampleDB 1 1 0 cartRow1 (by decide) (by decide) (by decide),
   update_cart_correct sampleDB 1 1 3 cartRow1 (by decide) (by decide) (by decide)⟩

/-- C2 counterexample: the admin update-order-status operation moves
order 1 of the sample store from delivered back to pending, a
transition the one-directional rule forbids, so it is not the case
that no operation of the system can set a status contrary to the
rule. -/
theorem order_status_rule_counterexample :
    ¬ (∀ (db : DB) (oid : Nat) (ns : String) (db2 : DB) (o o2 : Order),
        update_order_status db oid ns = .ok db2 →
        findOrder db oid = some o → findOrder db2 oid = some o2 →
        specAllowedTransition o.status o2.status = true) := by
  intro hall
  have hx := hall sampleDB 1 "pending" (setOrderStatus sampleDB 1 "pending")
    order1 { order1 with status := "pending" }
    (by decide) (by decide) (by decide)
  exact absurd hx (by decide)

/-- C2 amended: the user cancel route obeys the rule, cancelling only
orders the requester owns that are pending or confirmed, but the admin
update-order-status route writes any of the five whitelisted statuses
unconditionally, regardless of the current status (so backward
transitions are possible through it), and rejects only unknown status
strings. -/
theorem order_status_transitions_amended (db : DB) (uid oid : Nat)
    (ns : String) (o : Order) (hfind : findOrder db oid = some o) :
    ((∃ db2, cancel_order db uid oid = .ok db2) →
        o.user_id = uid ∧ (o.status = "pending" ∨ o.status = "confirmed")) ∧
    (ns ∈ statusWhitelist →
        update_order_status db oid ns = .ok (setOrderStatus db oid ns) ∧
        findOrder (setOrderStatus db oid ns) oid = some { o with status := ns }) ∧
    (ns ∉ statusWhitelist → update_order_status db oid ns = .badStatus) := by
  have hupd : update_order_status db oid ns =
      (if statusWhitelist.contains ns then
        UpdateStatusResult.ok (setOrderStatus db oid ns)
       else .badStatus) := by
    rw [update_order_status, hfind]
  refine ⟨?_, ?_, ?_⟩
  · rintro ⟨db2, h⟩
    have hbody : cancel_order db uid oid =
        (if !(o.user_id == uid) then CancelResult.forbidden
         else if !(["pending", "confirmed"].contains o.status) then
           .rejected db
         else .ok (setOrderStatus db oid "cancelled")) := by
      rw [cancel_order, hfind]
    rw [hbody] at h
    by_cases h1 : (o.user_id == uid) = true
    · rw [h1] at h
      simp only [Bool.not_true, Bool.false_eq_true, if_false] at h
      by_cases h2 : (["pending", "confirmed"].contains o.status) = true
      · refine ⟨beq_iff_eq.mp h1, ?_⟩
        simpa using h2
      · rw [Bool.not_eq_true] at h2
        rw [h2] at h
        simp at h
    · rw [Bool.not_eq_true] at h1
      rw [h1] at h
      simp at h
  · intro hns
    have hcont : statusWhitelist.contains ns = true := List.elem_iff.mpr hns
    refine ⟨?_, ?_⟩
    · rw [hupd, if_pos hcont]
    · rw [findOrder_setOrderStatus, hfind]
      rfl
  · intro hns
    have hcont : ¬ (statusWhitelist.contains ns = true) :=
      fun hx => hns (List.elem_iff.mp hx)
    rw [hupd, if_neg hcont]

/-- C2 amended witness: on the delivered sample order, the admin route
accepts the backward status preparing, and cancellation is governed by
the pending/confirmed guard. -/
theorem order_status_transitions_amended_witness :
    ((∃ db2, cancel_order sampleDB 1 1 = .ok db2) →
        order1.user_id = 1 ∧
          (order1.status = "pending" ∨ order1.status = "confirmed")) ∧
    ("preparing" ∈ statusWhitelist →
        update_order_status sampleDB 1 "preparing" =
          .ok (setOrderStatus sampleDB 1 "preparing") ∧
        findOrder (setOrderStatus sampleDB 1 "preparing") 1 =
          some { order1 with status := "preparing" }) ∧
    ("preparing" ∉ statusWhitelist →
        update_order_status sampleDB 1 "preparing" = .badStatus) :=
  order_status_transitions_amended sampleDB 1 1 "preparing" order1 (by decide)

/-- C4: adding an available food that already sits in the requesting
user's cart increments that row's quantity by the requested quantity,
merges the instructions (concatenation with a "; " separator when both
are non-empty, direct store when the row had none, no change when the
new instructions are empty) and creates no second row for the pair. -/
theorem add_to_cart_merge (db : DB) (uid fid : Nat) (q : Int)
    (instr : String) (nid : Nat) (now : Int) (food : Food) (c : Cart)
    (hfood : findFood db fid = some food) (havail : food.is_available = true)
    (hc : db.carts.find? (fun x => x.user_id == uid && x.food_id == fid) = some c) :
    ∃ db2, add_to_cart db uid fid q instr nid now = .ok db2 ∧
      db2.carts.length = db.carts.length ∧
      db2.carts.find? (fun x => x.user_id == uid && x.food_id == fid) =
        some (cartMergeApply q instr c) ∧
      (cartMergeApply q instr c).quantity = c.quantity + q ∧
      (cartMergeApply q instr c).special_instructions =
        mergedInstructions c.special_instructions instr := by
  have hbody : add_to_cart db uid fid q instr nid now =
      .ok { db with carts := updateFirst (fun x => x.user_id == uid && x.food_id == fid) (cartMergeApply q instr) db.carts } := by
    rw [add_to_cart, hfood]
    simp only [havail, Bool.not_true, Bool.false_eq_true, if_false, hc]
  refine ⟨_, hbody, ?_, ?_, rfl, rfl⟩
  · show (updateFirst (fun x => x.user_id == uid && x.food_id == fid)
      (cartMergeApply q instr) db.carts).length = db.carts.length
    exact length_updateFirst _ _ _
  · show (updateFirst (fun x => x.user_id == uid && x.food_id == fid)
      (cartMergeApply q instr) db.carts).find?
        (fun x => x.user_id == uid && x.food_id == fid) =
      some (cartMergeApply q instr c)
    rw [find?_updateFirst (fun x : Cart => x.user_id == uid && x.food_id == fid)
      (cartMergeApply q instr) (fun a ha => ha), hc]
    rfl

/-- C4 witness: adding one more dosa with new instructions to alice's
existing dosa row increments 2 to 3 and appends the instructions after
a "; " separator, leaving a single row. -/
theorem add_to_cart_merge_witness :
    ∃ db2, add_to_cart sampleDB 1 1 1 "extra chutney" 9 8 = .ok db2 ∧
      db2.carts.length = sampleDB.carts.length ∧
      db2.carts.find? (fun x => x.user_id == 1 && x.food_id == 1) =
        some (cartMergeApply 1 "extra chutney" cartRow1) ∧
      (cartMergeApply 1 "extra chutney" cartRow1).quantity =
        cartRow1.quantity + 1 ∧
      (cartMergeApply 1 "extra chutney" cartRow1).special_instructions =
        mergedInstructions cartRow1.special_instructions "extra chutney" :=
  add_to_cart_merge sampleDB 1 1 1 "extra chutney" 9 8 dosa cartRow1
    (by decide) (by decide) (by decide)

/-- C5: edit_food rewrites the live Food row, including its price, but
leaves every existing OrderItem (hence every stored
price-at-order-time) and every Order untouched, so historical totals
are unaffected. -/
theorem edit_food_price_frame (db : DB) (fid : Nat) (form : FoodForm)
    (db2 : DB) (h : edit_food db fid form = some db2) :
    db2.order_items = db.order_items ∧ db2.orders = db.orders ∧
      (findFood db2 fid).map Food.price = some form.price := by
  cases hf : findFood db fid with
  | none =>
    rw [edit_food, hf] at h
    cases h
  | some food =>
    have hbody : edit_food db fid form =
        some { db with foods := updateFirst (fun f => f.id == fid) (foodApply form) db.foods } := by
      rw [edit_food, hf]
    rw [hbody] at h
    injection h with h
    rw [← h]
    refine ⟨rfl, rfl, ?_⟩
    show ((updateFirst (fun f => f.id == fid) (foodApply form)
      db.foods).find? (fun f => f.id == fid)).map Food.price =
        some form.price
    rw [find?_updateFirst (fun f : Food => f.id == fid) (foodApply form)
      (fun a ha => ha)]
    rw [findFood] at hf
    rw [hf]
    rfl

/-- C5 witness: doubling the dosa price leaves the order-items table of
the sample store unchanged while the live price becomes the new one. -/
theorem edit_food_price_frame_witness :
    (editFoodWitnessDB).order_items = sampleDB.order_items ∧
      (editFoodWitnessDB).orders = sampleDB.orders ∧
      (findFood editFoodWitnessDB 1).map Food.price = some 500 :=
  edit_food_price_frame sampleDB 1 priceEditForm editFoodWitnessDB (by rfl)

/-- C6: the homepage active-coupon lookup only ever returns a coupon
that is active and not yet expired, and never returns any coupon whose
valid_to lies strictly before the current time. -/
theorem active_coupon_not_expired (db : DB) (now : Int) (c : Coupon)
    (h : active_coupon db now = some c) :
    c.active = true ∧ now ≤ c.valid_to ∧ c ∈ db.coupons ∧
      ∀ c2 : Coupon, c2.valid_to < now → active_coupon db now ≠ some c2 := by
  rw [active_coupon] at h
  have hmem := head?_mem h
  rw [mem_sortByCreatedDesc, List.mem_filter] at hmem
  obtain ⟨hin, hp⟩ := hmem
  rw [Bool.and_eq_true] at hp
  have hv : now ≤ c.valid_to := of_decide_eq_true hp.2
  refine ⟨hp.1, hv, hin, ?_⟩
  intro c2 hc2 hEq
  rw [active_coupon, h] at hEq
  injection hEq with hEq
  rw [hEq] at hv
  exact absurd hv (not_le.mpr hc2)

/-- C6 witness: at time 7 the sample coupon (valid to 100, active) is
returned and satisfies the guarantees. -/
theorem active_coupon_not_expired_witness :
    coupon1.active = true ∧ (7 : Int) ≤ coupon1.valid_to ∧
      coupon1 ∈ sampleDB.coupons ∧
      ∀ c2 : Coupon, c2.valid_to < 7 → active_coupon sampleDB 7 ≠ some c2 :=
  active_coupon_not_expired sampleDB 7 coupon1 (by decide)

end Hotel
